import Mathlib

/-
  Verification of the whoop_scraper repository.

  Shallow embedding of the two source files:
    - whoop_scraper.py          (CLI variant: WhoopUser with heart-rate + cycle data)
    - lambda/lambda_function.py (request-handler variant: WhoopUser + lambda_handler)

  Modelling conventions:
    - JSON numbers are modelled as integers (the payload fields used by the
      formatter are integral in every claim).
    - Python exceptions are explicit values; `except Exception` catches every
      constructor except `systemExit` (SystemExit derives from BaseException,
      not Exception, so the `exit()` builtin escapes `except Exception`).
    - `datetime` values are naive instants, modelled as microseconds since the
      Unix epoch; `datetime.date` values are (year, month, day) triples.
    - `datetime.timestamp()` on a naive value interprets it in the local
      timezone of the process; the platform UTC offset (in seconds, east
      positive) is an explicit environment parameter `tzOffset`.
    - Network responses are environment parameters (status code and JSON body).
-/

set_option maxHeartbeats 1000000

namespace Whoop

/-- JSON values as returned by `requests.Response.json()`.  Numbers are
modelled as integers; the metric payloads the formatter consumes carry
integral fields only. -/
inductive Json where
  | null : Json
  | bool : Bool → Json
  | num : Int → Json
  | str : String → Json
  | arr : List Json → Json
  | obj : List (String × Json) → Json

/-- Python exceptions raised by the scraper code.  Each constructor carries
the text produced by `str(e)` (for `KeyError` this is the repr of the key,
e.g. `KeyError("values")` prints as `'values'`).  `systemExit` models the
`SystemExit` raised by the `exit()` builtin; it is not caught by
`except Exception`. -/
inductive PyExc where
  | keyError : String → PyExc
  | typeError : String → PyExc
  | valueError : String → PyExc
  | indexError : String → PyExc
  | attrError : String → PyExc
  | systemExit : PyExc

/-- `str(e)` for an exception value. -/
def strExc : PyExc → String
  | .keyError r => r
  | .typeError m => m
  | .valueError m => m
  | .indexError m => m
  | .attrError m => m
  | .systemExit => ""

/-- Python type name of a JSON value, as it appears in error messages. -/
def pyType : Json → String
  | .null => "NoneType"
  | .bool _ => "bool"
  | .num _ => "int"
  | .str _ => "str"
  | .arr _ => "list"
  | .obj _ => "dict"

/-- Python truthiness of a JSON value. -/
def truthy : Json → Bool
  | .null => false
  | .bool b => b
  | .num n => n != 0
  | .str s => s != ""
  | .arr xs => !xs.isEmpty
  | .obj fs => !fs.isEmpty

/-- First-match lookup in an association list (JSON objects are built with
insert-overwrite semantics, so first match equals Python dict lookup). -/
def lookupField : List (String × Json) → String → Option Json
  | [], _ => none
  | (k, v) :: rest, key => if k = key then some v else lookupField rest key

/-- Python `value[key]` for a string key: dict lookup raising `KeyError` on a
missing key, `TypeError` on non-subscriptable or wrongly-indexed values. -/
def pyIndex (j : Json) (key : String) : Except PyExc Json :=
  match j with
  | .obj fs =>
    match lookupField fs key with
    | some v => .ok v
    | none => .error (.keyError ("\x27" ++ key ++ "\x27"))
  | .str _ => .error (.typeError "string indices must be integers")
  | .arr _ => .error (.typeError "list indices must be integers or slices, not str")
  | .null => .error (.typeError "\x27NoneType\x27 object is not subscriptable")
  | .bool _ => .error (.typeError "\x27bool\x27 object is not subscriptable")
  | .num _ => .error (.typeError "\x27int\x27 object is not subscriptable")

/-- Python `value[0]`. -/
def pyIndexZero (j : Json) : Except PyExc Json :=
  match j with
  | .arr [] => .error (.indexError "list index out of range")
  | .arr (x :: _) => .ok x
  | .str s =>
    match s.data with
    | [] => .error (.indexError "string index out of range")
    | c :: _ => .ok (.str (String.mk [c]))
  | .obj _ => .error (.keyError "0")
  | .null => .error (.typeError "\x27NoneType\x27 object is not subscriptable")
  | .bool _ => .error (.typeError "\x27bool\x27 object is not subscriptable")
  | .num _ => .error (.typeError "\x27int\x27 object is not subscriptable")

/-- Python `for x in value`: lists iterate elements, strings iterate
one-character strings, dicts iterate keys; other values raise `TypeError`. -/
def pyIterate (j : Json) : Except PyExc (List Json) :=
  match j with
  | .arr xs => .ok xs
  | .str s => .ok (s.data.map (fun c => Json.str (String.mk [c])))
  | .obj fs => .ok (fs.map (fun kv => Json.str kv.1))
  | .null => .error (.typeError "\x27NoneType\x27 object is not iterable")
  | .bool _ => .error (.typeError "\x27bool\x27 object is not iterable")
  | .num _ => .error (.typeError "\x27int\x27 object is not iterable")

/-- Python `value * k` for an integer literal `k` (sequence repetition for
str and list, arithmetic for numbers and bools). -/
def pyMul (j : Json) (k : Int) : Except PyExc Json :=
  match j with
  | .num n => .ok (.num (n * k))
  | .bool b => .ok (.num ((if b then 1 else 0) * k))
  | .str s => .ok (.str (String.join (List.replicate k.toNat s)))
  | .arr xs => .ok (.arr (List.flatten (List.replicate k.toNat xs)))
  | .null => .error (.typeError "unsupported operand type(s) for *: \x27NoneType\x27 and \x27int\x27")
  | .obj _ => .error (.typeError "unsupported operand type(s) for *: \x27dict\x27 and \x27int\x27")

/-- Python `value == "s"` (equality against a string literal). -/
def jsonEqStr (j : Json) (s : String) : Bool :=
  match j with
  | .str t => t == s
  | _ => false

/-- `repr(value)`, used for container elements inside f-string interpolation
(string escaping inside reprs is not reproduced; no claim depends on
container rendering). -/
def pyRepr : Json → String
  | .null => "None"
  | .bool true => "True"
  | .bool false => "False"
  | .num n => toString n
  | .str s => "\x27" ++ s ++ "\x27"
  | .arr xs => "[" ++ String.intercalate ", " (xs.attach.map (fun x => pyRepr x.1)) ++ "]"
  | .obj fs =>
    "\x7b" ++ String.intercalate ", "
      (fs.attach.map (fun kv => "\x27" ++ kv.1.1 ++ "\x27: " ++ pyRepr kv.1.2)) ++ "\x7d"
termination_by j => sizeOf j
decreasing_by
  · have h := List.sizeOf_lt_of_mem x.2
    simp_wf
    omega
  · obtain ⟨⟨k, v⟩, hm⟩ := kv
    have h := List.sizeOf_lt_of_mem hm
    simp_wf
    simp at h
    omega

/-- `str(value)` as used by f-string interpolation. -/
def pyStr : Json → String
  | .null => "None"
  | .bool true => "True"
  | .bool false => "False"
  | .num n => toString n
  | .str s => s
  | .arr xs => pyRepr (.arr xs)
  | .obj fs => pyRepr (.obj fs)

/-- The error line `error msg="<description>" <timestamp_ns>` printed or
collected on every failure (`f-string` at whoop_scraper.py:23,68,113,136,166
and lambda_function.py:53,89,103,133). -/
def errLine (msg : String) (ns : Int) : String :=
  "error msg=\x22" ++ msg ++ "\x22 " ++ toString ns

/-! ## Calendar arithmetic

Python `datetime.date` ordinals and naive `datetime` values.  A naive
`datetime` is modelled as microseconds since the Unix epoch; conversions
between civil dates and epoch day counts use the standard proleptic
Gregorian algorithms (the same arithmetic `datetime.toordinal` /
`datetime.fromordinal` implement, shifted to the 1970 epoch). -/

/-- Days since 1970-01-01 of a civil date (proleptic Gregorian). -/
def daysFromCivil (y m d : Int) : Int :=
  let yy := y - (if m ≤ 2 then 1 else 0)
  let era := yy.ediv 400
  let yoe := yy - era * 400
  let doy := (153 * (m + (if m > 2 then -3 else 9)) + 2).ediv 5 + d - 1
  let doe := yoe * 365 + yoe.ediv 4 - yoe.ediv 100 + doy
  era * 146097 + doe - 719468

/-- Civil date of a day count since 1970-01-01 (inverse of `daysFromCivil`). -/
def civilFromDays (z0 : Int) : Int × Int × Int :=
  let z := z0 + 719468
  let era := z.ediv 146097
  let doe := z - era * 146097
  let yoe := (doe - doe.ediv 1460 + doe.ediv 36524 - doe.ediv 146096).ediv 365
  let yv := yoe + era * 400
  let doy := doe - (365 * yoe + yoe.ediv 4 - yoe.ediv 100)
  let mp := (5 * doy + 2).ediv 153
  let dv := doy - (153 * mp + 2).ediv 5 + 1
  let mv := mp + (if mp < 10 then 3 else -9)
  (yv + (if mv ≤ 2 then 1 else 0), mv, dv)

/-- Two zero-padded decimal digits. -/
def pad2 (n : Int) : String :=
  String.mk [Nat.digitChar ((n.ediv 10).emod 10).toNat, Nat.digitChar (n.emod 10).toNat]

/-- Four zero-padded decimal digits. -/
def pad4 (n : Int) : String :=
  String.mk [Nat.digitChar ((n.ediv 1000).emod 10).toNat, Nat.digitChar ((n.ediv 100).emod 10).toNat,
    Nat.digitChar ((n.ediv 10).emod 10).toNat, Nat.digitChar (n.emod 10).toNat]

/-- Six zero-padded decimal digits. -/
def pad6 (n : Int) : String :=
  String.mk [Nat.digitChar ((n.ediv 100000).emod 10).toNat, Nat.digitChar ((n.ediv 10000).emod 10).toNat,
    Nat.digitChar ((n.ediv 1000).emod 10).toNat, Nat.digitChar ((n.ediv 100).emod 10).toNat,
    Nat.digitChar ((n.ediv 10).emod 10).toNat, Nat.digitChar (n.emod 10).toNat]

/-- `strftime("%Y-%m-%dT%H:%M:%S.%fZ")` of a naive datetime (microseconds
since epoch).  `.replace(tzinfo=timezone.utc)` in the source does not change
the naive civil fields, so the rendered text depends on the instant only;
the `Z` is a literal suffix in the format string. -/
def strftimeISO (t : Int) : String :=
  let day := t.ediv 86400000000
  let rem := t.emod 86400000000
  let ymd := civilFromDays day
  let secs := rem.ediv 1000000
  let us := rem.emod 1000000
  pad4 ymd.1 ++ "-" ++ pad2 ymd.2.1 ++ "-" ++ pad2 ymd.2.2 ++ "T" ++
    pad2 (secs.ediv 3600) ++ ":" ++ pad2 ((secs.ediv 60).emod 60) ++ ":" ++
    pad2 (secs.emod 60) ++ "." ++ pad6 us ++ "Z"

/-- Decimal value of a digit character. -/
def digVal (c : Char) : Nat := c.toNat - 48

/-- Number of days in a month of the proleptic Gregorian calendar. -/
def daysInMonth (y : Int) (m : Nat) : Nat :=
  if m = 2 then
    (if y.emod 4 = 0 ∧ (y.emod 100 ≠ 0 ∨ y.emod 400 = 0) then 29 else 28)
  else if m = 4 ∨ m = 6 ∨ m = 9 ∨ m = 11 then 30
  else 31

/-- CPython `_strptime` month pattern `1[0-2]|0[1-9]|[1-9]` (greedy
alternation). -/
def matchMonth : List Char → Option (Nat × List Char)
  | '1' :: c :: rest =>
    if '0' ≤ c ∧ c ≤ '2' then some (10 + digVal c, rest) else some (1, c :: rest)
  | '0' :: c :: rest =>
    if '1' ≤ c ∧ c ≤ '9' then some (digVal c, rest) else none
  | c :: rest =>
    if '1' ≤ c ∧ c ≤ '9' then some (digVal c, rest) else none
  | [] => none

/-- CPython `_strptime` day pattern `3[01]|[12]\d|0[1-9]|[1-9]`. -/
def matchDay : List Char → Option (Nat × List Char)
  | '3' :: c :: rest =>
    if c = '0' ∨ c = '1' then some (30 + digVal c, rest) else some (3, c :: rest)
  | c1 :: c :: rest =>
    if (c1 = '1' ∨ c1 = '2') ∧ c.isDigit then some (digVal c1 * 10 + digVal c, rest)
    else if c1 = '0' ∧ ('1' ≤ c ∧ c ≤ '9') then some (digVal c, rest)
    else if '1' ≤ c1 ∧ c1 ≤ '9' then some (digVal c1, c :: rest)
    else none
  | [c] => if '1' ≤ c ∧ c ≤ '9' then some (digVal c, []) else none
  | [] => none

/-- `datetime.strptime(s, "%Y-%m-%d")`, returning the parsed civil date.
The year takes exactly four digits (CPython pattern `\d\d\d\d`); month and
day follow the CPython alternations; trailing text and out-of-range days
raise `ValueError` exactly as CPython does. -/
def strptimeYmd (s : String) : Except PyExc (Int × Int × Int) :=
  let mismatch : Except PyExc (Int × Int × Int) :=
    .error (.valueError ("time data \x27" ++ s ++ "\x27 does not match format \x27%Y-%m-%d\x27"))
  match s.data with
  | y1 :: y2 :: y3 :: y4 :: '-' :: rest1 =>
    if y1.isDigit ∧ y2.isDigit ∧ y3.isDigit ∧ y4.isDigit then
      let y : Nat := digVal y1 * 1000 + digVal y2 * 100 + digVal y3 * 10 + digVal y4
      match matchMonth rest1 with
      | none => mismatch
      | some (m, rest2) =>
        match rest2 with
        | '-' :: rest3 =>
          match matchDay rest3 with
          | none => mismatch
          | some (d, rest4) =>
            if rest4 ≠ [] then
              .error (.valueError ("unconverted data remains: " ++ String.mk rest4))
            else if y = 0 then
              .error (.valueError "year 0 is out of range")
            else if d ≤ daysInMonth (Int.ofNat y) m then
              .ok (Int.ofNat y, Int.ofNat m, Int.ofNat d)
            else
              .error (.valueError "day is out of range for month")
        | _ => mismatch
    else mismatch
  | _ => mismatch

/-- Sanity: the Unix epoch is day zero. -/
theorem daysFromCivil_epoch : daysFromCivil 1970 1 1 = 0 := by decide

/-- Sanity: 2022-01-01 is epoch day 18993 and renders at midnight as the
documented timestamp format. -/
theorem daysFromCivil_2022 :
    daysFromCivil 2022 1 1 = 18993 ∧
    strftimeISO (18993 * 86400000000) = "2022-01-01T00:00:00.000000Z" ∧
    strptimeYmd "2022-01-01" = .ok (2022, 1, 1) := by
  refine ⟨by decide, rfl, rfl⟩

/-! ## CLI variant (whoop_scraper.py) -/

/-- Session state of `WhoopUser` in whoop_scraper.py.  `start_datetime` is a
naive datetime in microseconds since epoch; `start_date` is the optional
anchor `datetime.date`.  Field defaults reproduce the constructor arguments
`window_s=480`, `interval_s=6`, `start_date=None`. -/
structure ScraperState where
  username : String := ""
  password : String := ""
  userid : Json := Json.null
  access_token : Json := Json.null
  start_date : Option (Int × Int × Int) := none
  window_seconds : Int := 480
  interval_seconds : Int := 6
  start_datetime : Int := 0
  api_end_time : String := ""
  api_start_time : String := ""
  heartrate_data : Json := Json.null
  sleep_workout_data : Json := Json.null

/-- `WhoopUser.set_api_timestamps` (whoop_scraper.py:75-93).
`nowUs` is the value `datetime.utcnow()` would return (naive, microseconds
since epoch), used only when no anchor date was supplied.  For the "cycle"
data type the stored `window_seconds` is overwritten with 432000 before the
query timestamps are rendered. -/
def set_api_timestamps (st : ScraperState) (data_type : String) (nowUs : Int) : ScraperState :=
  let start_datetime : Int :=
    match st.start_date with
    | some ymd => daysFromCivil ymd.1 ymd.2.1 ymd.2.2 * 86400000000
    | none => nowUs
  let window : Int := if data_type = "cycle" then 432000 else st.window_seconds
  { st with
    start_datetime := start_datetime
    window_seconds := window
    api_end_time := strftimeISO start_datetime
    api_start_time := strftimeISO (start_datetime - window * 1000000) }

/-- A sequence of further `set_api_timestamps` calls, each with its own data
type and its own `utcnow` value. -/
def applyTimestampCalls (st : ScraperState) : List (String × Int) → ScraperState
  | [] => st
  | c :: rest => applyTimestampCalls (set_api_timestamps st c.1 c.2) rest

/-- The heart-rate loop of `print_line_protocol` (whoop_scraper.py:144-147 and
lambda_function.py:97-101): emitted lines paired with the first exception, if
any (lines already produced before the exception are kept, matching the
incremental printing of the CLI variant). -/
def fmtHeartrates (uid : Json) : List Json → List String × Option PyExc
  | [] => ([], none)
  | h :: rest =>
    match pyIndex h "data" with
    | .error e => ([], some e)
    | .ok bpm =>
      match pyIndex h "time" with
      | .error e => ([], some e)
      | .ok tm =>
        match pyMul tm 1000000 with
        | .error e => ([], some e)
        | .ok ns =>
          let line := "heartrate,user_id=" ++ pyStr uid ++ " bpm=" ++ pyStr bpm ++ " " ++ pyStr ns
          let p := fmtHeartrates uid rest
          (line :: p.1, p.2)

/-- The sleep record of one cycle day (whoop_scraper.py:151-156): the day
string is parsed with `strptime` and `int(round(dt.timestamp()))` interprets
the naive midnight in the local timezone (`tz` seconds east of UTC). -/
def sleepLine (tz : Int) (uid : Json) (day sleepJ : Json) : Except PyExc String :=
  match pyIndex day "days" with
  | .error e => .error e
  | .ok dsJ =>
    match pyIndexZero dsJ with
    | .error e => .error e
    | .ok d0 =>
      match d0 with
      | .str s =>
        match strptimeYmd s with
        | .error e => .error e
        | .ok ymd =>
          match pyIndex sleepJ "score" with
          | .error e => .error e
          | .ok score =>
            .ok ("sleep,user_id=" ++ pyStr uid ++ " sleep_score=" ++ pyStr score ++ " " ++
              toString ((daysFromCivil ymd.1 ymd.2.1 ymd.2.2 * 86400 - tz) * 1000 * 1000000))
      | other => .error (.typeError ("strptime() argument 1 must be str, not " ++ pyType other))

/-- One workout record (whoop_scraper.py:158-163), with the same
day-midnight timestamp computation as the sleep record. -/
def workoutLine (tz : Int) (uid : Json) (day w : Json) : Except PyExc String :=
  match pyIndex day "days" with
  | .error e => .error e
  | .ok dsJ =>
    match pyIndexZero dsJ with
    | .error e => .error e
    | .ok d0 =>
      match d0 with
      | .str s =>
        match strptimeYmd s with
        | .error e => .error e
        | .ok ymd =>
          match pyIndex w "maxHeartRate" with
          | .error e => .error e
          | .ok mhr =>
            .ok ("workout,user_id=" ++ pyStr uid ++ " max_heartrate=" ++ pyStr mhr ++ " " ++
              toString ((daysFromCivil ymd.1 ymd.2.1 ymd.2.2 * 86400 - tz) * 1000 * 1000000))
      | other => .error (.typeError ("strptime() argument 1 must be str, not " ++ pyType other))

/-- The `for workout in day["strain"]["workouts"]` loop. -/
def fmtWorkouts (tz : Int) (uid : Json) (day : Json) : List Json → List String × Option PyExc
  | [] => ([], none)
  | w :: rest =>
    match workoutLine tz uid day w with
    | .error e => ([], some e)
    | .ok line =>
      let p := fmtWorkouts tz uid day rest
      (line :: p.1, p.2)

/-- The sleep branch of one day iteration (whoop_scraper.py:150-156):
`if day["sleep"] and day["sleep"]["state"] == "complete"`. -/
def fmtSleepSection (tz : Int) (uid : Json) (day : Json) : List String × Option PyExc :=
  match pyIndex day "sleep" with
  | .error e => ([], some e)
  | .ok sleepJ =>
    if truthy sleepJ then
      match pyIndex sleepJ "state" with
      | .error e => ([], some e)
      | .ok st =>
        if jsonEqStr st "complete" then
          match sleepLine tz uid day sleepJ with
          | .error e => ([], some e)
          | .ok line => ([line], none)
        else ([], none)
    else ([], none)

/-- The strain branch of one day iteration (whoop_scraper.py:157-163):
`if day["strain"] and day["strain"]["workouts"]`. -/
def fmtStrainSection (tz : Int) (uid : Json) (day : Json) : List String × Option PyExc :=
  match pyIndex day "strain" with
  | .error e => ([], some e)
  | .ok strainJ =>
    if truthy strainJ then
      match pyIndex strainJ "workouts" with
      | .error e => ([], some e)
      | .ok w =>
        if truthy w then
          match pyIterate w with
          | .error e => ([], some e)
          | .ok ws => fmtWorkouts tz uid day ws
        else ([], none)
    else ([], none)

/-- One iteration of `for day in self.sleep_workout_data`. -/
def fmtDay (tz : Int) (uid : Json) (day : Json) : List String × Option PyExc :=
  let sres := fmtSleepSection tz uid day
  match sres.2 with
  | some e => (sres.1, some e)
  | none =>
    let tres := fmtStrainSection tz uid day
    (sres.1 ++ tres.1, tres.2)

/-- The full day loop. -/
def fmtDays (tz : Int) (uid : Json) : List Json → List String × Option PyExc
  | [] => ([], none)
  | day :: rest =>
    let p := fmtDay tz uid day
    match p.2 with
    | some e => (p.1, some e)
    | none =>
      let q := fmtDays tz uid rest
      (p.1 ++ q.1, q.2)

/-- `WhoopUser.print_line_protocol` of the CLI variant
(whoop_scraper.py:142-167).  Returns the lines printed to stdout and whether
the `except` handler ran (it prints one error line and calls `exit()`).
Lines printed before an exception stay on stdout. -/
def cliPrintLineProtocol (tz nowNs : Int) (uid : Json) (hr sw : Json) : List String × Bool :=
  let body : List String × Option PyExc :=
    match pyIndex hr "values" with
    | .error e => ([], some e)
    | .ok vs =>
      match pyIterate vs with
      | .error e => ([], some e)
      | .ok items =>
        let p := fmtHeartrates uid items
        match p.2 with
        | some e => (p.1, some e)
        | none =>
          match pyIterate sw with
          | .error e => (p.1, some e)
          | .ok days =>
            let q := fmtDays tz uid days
            (p.1 ++ q.1, q.2)
  match body.2 with
  | none => (body.1, false)
  | some e => (body.1 ++ [errLine (strExc e) nowNs], true)

/-- Environment of one CLI run: the three HTTP responses, the platform UTC
offset applied by naive `timestamp()`, the `time.time_ns()` value observed at
an error site and the `datetime.utcnow()` value. -/
structure CliEnv where
  tokenStatus : Nat := 200
  tokenBody : Json := Json.null
  hrStatus : Nat := 200
  hrBody : Json := Json.null
  cycleStatus : Nat := 200
  cycleBody : Json := Json.null
  tzOffset : Int := 0
  nowNs : Int := 0
  nowUs : Int := 0

/-- `main()` of the CLI variant (whoop_scraper.py:17-23 with the `WhoopUser`
constructor whoop_scraper.py:41-52): the lines printed to stdout paired with
the number of metric GET requests issued.  `get_token` prints an error and
exits on a non-200 token response (the `SystemExit` of `exit()` is not an
`Exception`, so `main`'s handler does not catch it); an exception while
extracting the token-body fields is caught by `main` and printed; each of
`get_heartrate_data` / `get_cycle_data` issues one GET and exits on a non-200
response.  The query-string timestamps do not influence the emitted lines. -/
def cliRun (env : CliEnv) : List String × Nat :=
  if env.tokenStatus ≠ 200 then
    ([errLine "Fail - Credentials rejected." env.nowNs], 0)
  else
    let creds : Except PyExc (Json × Json) :=
      match pyIndex env.tokenBody "user" with
      | .error e => .error e
      | .ok uj =>
        match pyIndex uj "id" with
        | .error e => .error e
        | .ok uid =>
          match pyIndex env.tokenBody "access_token" with
          | .error e => .error e
          | .ok tok => .ok (uid, tok)
    match creds with
    | .error e => ([errLine (strExc e) env.nowNs], 0)
    | .ok (uid, _tok) =>
      if env.hrStatus ≠ 200 then
        ([errLine "Fail - User ID / auth token rejected." env.nowNs], 1)
      else if env.cycleStatus ≠ 200 then
        ([errLine "Fail - User ID / auth token rejected." env.nowNs], 2)
      else
        ((cliPrintLineProtocol env.tzOffset env.nowNs uid env.hrBody env.cycleBody).1, 2)

/-! ## json.loads

A fuelled recursive-descent parser for the subset of JSON the model
represents.  Numbers are integers (a fraction or exponent makes the parse
fail, since floats are outside the model); `JSONDecodeError` positions are
not reproduced in the messages.  Object keys use Python dict
insert-overwrite semantics. -/

/-- The `\x7b` character. -/
def obraceC : Char := Char.ofNat 123

/-- The `\x7d` character. -/
def cbraceC : Char := Char.ofNat 125

/-- Skip JSON whitespace. -/
def skipWs : List Char → List Char
  | c :: rest => if c = ' ' ∨ c = '\t' ∨ c = '\n' ∨ c = '\r' then skipWs rest else c :: rest
  | [] => []

/-- Value of a hexadecimal digit. -/
def hexVal (c : Char) : Nat :=
  if c.isDigit then digVal c
  else if 'a' ≤ c ∧ c ≤ 'f' then c.toNat - 87
  else c.toNat - 55

/-- Whether a character is a hexadecimal digit. -/
def isHexDig (c : Char) : Bool :=
  c.isDigit || ('a' ≤ c && c ≤ 'f') || ('A' ≤ c && c ≤ 'F')

/-- Scan a JSON string body (the opening quote already consumed). -/
def jstrLoop (acc : List Char) : List Char → Except String (String × List Char)
  | [] => .error "Unterminated string starting at"
  | c :: rest =>
    if c = '\x22' then .ok (String.mk acc.reverse, rest)
    else if c = '\\' then
      match rest with
      | [] => .error "Unterminated string starting at"
      | e :: rest2 =>
        if e = '\x22' then jstrLoop ('\x22' :: acc) rest2
        else if e = '\\' then jstrLoop ('\\' :: acc) rest2
        else if e = '/' then jstrLoop ('/' :: acc) rest2
        else if e = 'b' then jstrLoop ('\x08' :: acc) rest2
        else if e = 'f' then jstrLoop ('\x0c' :: acc) rest2
        else if e = 'n' then jstrLoop ('\n' :: acc) rest2
        else if e = 'r' then jstrLoop ('\r' :: acc) rest2
        else if e = 't' then jstrLoop ('\t' :: acc) rest2
        else if e = 'u' then
          match rest2 with
          | h1 :: h2 :: h3 :: h4 :: rest3 =>
            if isHexDig h1 ∧ isHexDig h2 ∧ isHexDig h3 ∧ isHexDig h4 then
              jstrLoop (Char.ofNat (hexVal h1 * 4096 + hexVal h2 * 256 + hexVal h3 * 16 + hexVal h4) :: acc) rest3
            else .error "Invalid \\uXXXX escape"
          | _ => .error "Invalid \\uXXXX escape"
        else .error "Invalid \\escape"
    else jstrLoop (c :: acc) rest

/-- Numeric value of a digit list. -/
def digitsVal (ds : List Char) : Nat := ds.foldl (fun a c => a * 10 + digVal c) 0

/-- Parse an unsigned JSON integer at the head of the input (the regex part
`0|[1-9]\d*`); a following `.`, `e` or `E` means a float, which the integer
model rejects. -/
def parseNat : List Char → Except String (Nat × List Char)
  | [] => .error "Expecting value"
  | c :: rest =>
    if c = '0' then
      match rest with
      | c2 :: _ =>
        if c2 = '.' ∨ c2 = 'e' ∨ c2 = 'E' then .error "float literals are outside this model"
        else .ok (0, rest)
      | [] => .ok (0, [])
    else if c.isDigit then
      let ds := rest.takeWhile Char.isDigit
      let rest2 := rest.dropWhile Char.isDigit
      match rest2 with
      | c2 :: _ =>
        if c2 = '.' ∨ c2 = 'e' ∨ c2 = 'E' then .error "float literals are outside this model"
        else .ok (digitsVal (c :: ds), rest2)
      | [] => .ok (digitsVal (c :: ds), [])
    else .error "Expecting value"

/-- Remove the entry for a key. -/
def removeKey (fs : List (String × Json)) (k : String) : List (String × Json) :=
  match fs with
  | [] => []
  | (k0, v0) :: rest => if k0 = k then rest else (k0, v0) :: removeKey rest k

/-- Prepend one parsed object member to the members parsed after it, with
Python dict semantics for duplicate keys: the first occurrence fixes the
position, the last occurrence fixes the value. -/
def insertMember (k : String) (v : Json) (fs : List (String × Json)) : List (String × Json) :=
  match lookupField fs k with
  | some v2 => (k, v2) :: removeKey fs k
  | none => (k, v) :: fs

mutual

/-- Parse one JSON value. -/
def parseVal : Nat → List Char → Except String (Json × List Char)
  | 0, _ => .error "Expecting value"
  | fuel + 1, cs0 =>
    match skipWs cs0 with
    | 'n' :: 'u' :: 'l' :: 'l' :: rest => .ok (.null, rest)
    | 't' :: 'r' :: 'u' :: 'e' :: rest => .ok (.bool true, rest)
    | 'f' :: 'a' :: 'l' :: 's' :: 'e' :: rest => .ok (.bool false, rest)
    | '\x22' :: rest =>
      match jstrLoop [] rest with
      | .error m => .error m
      | .ok sr => .ok (.str sr.1, sr.2)
    | '[' :: rest =>
      (match skipWs rest with
      | ']' :: rest2 => .ok (.arr [], rest2)
      | cs1 =>
        match parseItems fuel cs1 with
        | .error m => .error m
        | .ok vr => .ok (.arr vr.1, vr.2))
    | '-' :: rest =>
      (match parseNat rest with
      | .error m => .error m
      | .ok nr => .ok (.num (-(Int.ofNat nr.1)), nr.2))
    | c :: rest =>
      if c = obraceC then
        match skipWs rest with
        | c2 :: rest2 =>
          if c2 = cbraceC then .ok (.obj [], rest2)
          else
            match parseFields fuel (c2 :: rest2) with
            | .error m => .error m
            | .ok fr => .ok (.obj fr.1, fr.2)
        | [] => .error "Expecting property name enclosed in double quotes"
      else if c.isDigit then
        match parseNat (c :: rest) with
        | .error m => .error m
        | .ok nr => .ok (.num (Int.ofNat nr.1), nr.2)
      else .error "Expecting value"
    | [] => .error "Expecting value"

/-- Parse the element list of a JSON array (at least one element). -/
def parseItems : Nat → List Char → Except String (List Json × List Char)
  | 0, _ => .error "Expecting value"
  | fuel + 1, cs =>
    match parseVal fuel cs with
    | .error m => .error m
    | .ok vr =>
      match skipWs vr.2 with
      | ',' :: rest =>
        (match parseItems fuel rest with
        | .error m => .error m
        | .ok lr => .ok (vr.1 :: lr.1, lr.2))
      | ']' :: rest => .ok ([vr.1], rest)
      | _ => .error "Expecting \x27,\x27 delimiter"

/-- Parse the member list of a JSON object (at least one member). -/
def parseFields : Nat → List Char → Except String (List (String × Json) × List Char)
  | 0, _ => .error "Expecting property name enclosed in double quotes"
  | fuel + 1, cs =>
    match skipWs cs with
    | '\x22' :: rest =>
      (match jstrLoop [] rest with
      | .error m => .error m
      | .ok kr =>
        match skipWs kr.2 with
        | ':' :: rest2 =>
          (match parseVal fuel rest2 with
          | .error m => .error m
          | .ok vr =>
            match skipWs vr.2 with
            | ',' :: rest3 =>
              (match parseFields fuel rest3 with
              | .error m => .error m
              | .ok fr => .ok (insertMember kr.1 vr.1 fr.1, fr.2))
            | c :: rest3 =>
              if c = cbraceC then .ok ([(kr.1, vr.1)], rest3)
              else .error "Expecting \x27,\x27 delimiter"
            | [] => .error "Expecting \x27,\x27 delimiter")
        | _ => .error "Expecting \x27:\x27 delimiter")
    | _ => .error "Expecting property name enclosed in double quotes"

end

/-- `json.loads` on a string. -/
def jsonLoadsStr (s : String) : Except PyExc Json :=
  match parseVal (2 * s.length + 4) s.data with
  | .error m => .error (.valueError m)
  | .ok vr => if skipWs vr.2 = [] then .ok vr.1 else .error (.valueError "Extra data")

/-- `json.loads` applied to an arbitrary value (lambda_function.py:123): a
non-string argument raises `TypeError`. -/
def pyLoads (j : Json) : Except PyExc Json :=
  match j with
  | .str s => jsonLoadsStr s
  | _ => .error (.typeError ("the JSON object must be str, bytes or bytearray, not " ++ pyType j))

/-- `body.get(key, None)` (lambda_function.py:124-125): dict lookup with a
`None` default; any non-dict receiver raises `AttributeError`. -/
def pyDictGet (j : Json) (key : String) : Except PyExc Json :=
  match j with
  | .obj fs =>
    match lookupField fs key with
    | some v => .ok v
    | none => .ok .null
  | _ => .error (.attrError ("\x27" ++ pyType j ++ "\x27 object has no attribute \x27get\x27"))

/-- Minimal `json.dumps` string escaping. -/
def jsonEscape (s : String) : String :=
  String.join (s.data.map (fun c =>
    if c = '\x22' then "\\\x22"
    else if c = '\\' then "\\\\"
    else if c = '\n' then "\\n"
    else if c = '\t' then "\\t"
    else if c = '\r' then "\\r"
    else String.mk [c]))

/-- `json.dumps({"message": str(e)})` (lambda_function.py:137). -/
def dumpsMessage (msg : String) : String :=
  "\x7b\x22message\x22: \x22" ++ jsonEscape msg ++ "\x22\x7d"

/-! ## Request-handler variant (lambda/lambda_function.py) -/

/-- Environment of one handler invocation: token and heart-rate responses,
plus the wall-clock values observed. -/
structure LamEnv where
  tokenStatus : Nat := 200
  tokenBody : Json := Json.null
  hrStatus : Nat := 200
  hrBody : Json := Json.null
  nowNs : Int := 0
  nowUs : Int := 0

/-- `WhoopUser` state in the lambda variant (lambda_function.py:24-37).
`data_raw`, `userid` and `access_token` start as `None`; the numeric fields
hold their constructor defaults. -/
structure LamUser where
  username : Json := Json.null
  password : Json := Json.null
  lines : List String := []
  data_raw : Json := Json.null
  userid : Json := Json.null
  access_token : Json := Json.null
  start_datetime : Int := 0
  window_seconds : Int := 480
  interval_seconds : Int := 6

/-- The freshly initialised user record before `get_token` runs. -/
def mkLamUser (u p : Json) : LamUser :=
  { username := u, password := p }

/-- `WhoopUser.__init__` of the lambda variant (lambda_function.py:24-37,
with `get_token` 39-58 and `get_data` 60-93).  Returns the number of metric
GET requests issued and either the constructed user or the exception the
constructor raised.  A non-200 token response appends one error line and
leaves `userid` as `None`, so `get_data` never runs; extracting the token
fields can raise `KeyError`, which propagates out of the constructor. -/
def lamInit (env : LamEnv) (u p : Json) : Nat × Except PyExc LamUser :=
  let user0 := mkLamUser u p
  if env.tokenStatus ≠ 200 then
    (0, .ok { user0 with lines := [errLine "Fail - Credentials rejected." env.nowNs] })
  else
    match pyIndex env.tokenBody "user" with
    | .error e => (0, .error e)
    | .ok uj =>
      match pyIndex uj "id" with
      | .error e => (0, .error e)
      | .ok uid =>
        match pyIndex env.tokenBody "access_token" with
        | .error e => (0, .error e)
        | .ok tok =>
          let user1 := { user0 with userid := uid, access_token := tok }
          if truthy uid then
            let user2 := { user1 with start_datetime := env.nowUs }
            let _api_end_time := strftimeISO user2.start_datetime
            let _api_start_time :=
              strftimeISO (user2.start_datetime - user2.window_seconds * 1000000)
            if env.hrStatus ≠ 200 then
              (1, .ok { user2 with
                lines := user2.lines ++ [errLine "Fail - User ID / auth token rejected." env.nowNs] })
            else
              (1, .ok { user2 with data_raw := env.hrBody })
          else (0, .ok user1)

/-- `WhoopUser.print_line_protocol` of the lambda variant
(lambda_function.py:95-104).  On success the heart-rate lines are appended
to `self.lines`; on any exception `self.lines` is REPLACED by a single error
line and `exit()` raises `SystemExit` (the returned flag). -/
def lamPrint (nowNs : Int) (user : LamUser) : LamUser × Bool :=
  match pyIndex user.data_raw "values" with
  | .error e => ({ user with lines := [errLine (strExc e) nowNs] }, true)
  | .ok vs =>
    match pyIterate vs with
    | .error e => ({ user with lines := [errLine (strExc e) nowNs] }, true)
    | .ok items =>
      let p := fmtHeartrates user.userid items
      match p.2 with
      | some e => ({ user with lines := [errLine (strExc e) nowNs] }, true)
      | none => ({ user with lines := user.lines ++ p.1 }, false)

/-- The handler response object `{"statusCode": ..., "body": ...}`. -/
structure LamResponse where
  statusCode : Nat
  body : String

/-- `lambda_handler` (lambda_function.py:117-139).  The result is `.error
.systemExit` when the `exit()` inside `print_line_protocol` fires: its
`SystemExit` is caught by neither `except Exception` handler and escapes the
function.  Every ordinary exception in the outer `try` produces the 400
response; every ordinary exception in the inner `try` is collected as an
error line in a 200 response. -/
def lambda_handler (env : LamEnv) (event : Json) : Except PyExc LamResponse :=
  match pyIndex event "body" with
  | .error e => .ok ⟨400, dumpsMessage (strExc e)⟩
  | .ok bodyJ =>
    match pyLoads bodyJ with
    | .error e => .ok ⟨400, dumpsMessage (strExc e)⟩
    | .ok body =>
      match pyDictGet body "whoop_username" with
      | .error e => .ok ⟨400, dumpsMessage (strExc e)⟩
      | .ok username =>
        match pyDictGet body "whoop_password" with
        | .error e => .ok ⟨400, dumpsMessage (strExc e)⟩
        | .ok password =>
          match (lamInit env username password).2 with
          | .error e =>
            (match e with
            | .systemExit => .error .systemExit
            | _ => .ok ⟨200, String.intercalate "\n" [errLine (strExc e) env.nowNs]⟩)
          | .ok user =>
            if truthy user.data_raw then
              let pr := lamPrint env.nowNs user
              if pr.2 then .error .systemExit
              else .ok ⟨200, String.intercalate "\n" pr.1.lines⟩
            else .ok ⟨200, String.intercalate "\n" user.lines⟩

/-- The envelope stage of the handler: reading `event["body"]`, parsing it as
JSON and reading the two credential fields.  Exactly the operations whose
exceptions the outer `except` turns into a 400 response. -/
def envelopeResult (event : Json) : Except PyExc (Json × Json) :=
  match pyIndex event "body" with
  | .error e => .error e
  | .ok bodyJ =>
    match pyLoads bodyJ with
    | .error e => .error e
    | .ok body =>
      match pyDictGet body "whoop_username" with
      | .error e => .error e
      | .ok username =>
        match pyDictGet body "whoop_password" with
        | .error e => .error e
        | .ok password => .ok (username, password)

/-- Whether an `Except` value is an error. -/
def isErrE {α : Type} : Except PyExc α → Bool
  | .error _ => true
  | .ok _ => false

/-- Whether this invocation reaches the `exit()` inside
`print_line_protocol`: the envelope stage succeeds, the constructor returns,
`data_raw` is truthy and the values iteration raises. -/
def fmtAborts (env : LamEnv) (event : Json) : Bool :=
  match envelopeResult event with
  | .error _ => false
  | .ok creds =>
    match (lamInit env creds.1 creds.2).2 with
    | .error _ => false
    | .ok user => truthy user.data_raw && (lamPrint env.nowNs user).2

/-- Status code of a handler result, `none` when the handler raised. -/
def statusOf : Except PyExc LamResponse → Option Nat
  | .ok r => some r.statusCode
  | .error _ => none

/-! ## Record classification

Output lines are classified by their leading measurement tag, following the
line-protocol format `<measurement>,user_id=... <field>=<value> <ts>` and the
error format `error msg="..." <ts>`. -/

/-- Whether a line starts with the given tag text. -/
def lineTagIs (tag l : String) : Bool :=
  l.data.take tag.data.length == tag.data

/-- An `error msg="..."` record. -/
def isErrorRecord (l : String) : Bool := lineTagIs "error " l

/-- A `sleep` measurement record. -/
def isSleepRecord (l : String) : Bool := lineTagIs "sleep," l

/-- Any of the three data measurement records. -/
def isDataRecord (l : String) : Bool :=
  lineTagIs "heartrate," l || lineTagIs "sleep," l || lineTagIs "workout," l

/-- Number of lines satisfying a classifier. -/
def countWhere (p : String → Bool) (ls : List String) : Nat :=
  (ls.filter p).length

theorem countWhere_eq_zero (p : String → Bool) (ls : List String)
    (h : ∀ l ∈ ls, p l = false) : countWhere p ls = 0 := by
  have hnil : ls.filter p = [] := List.filter_eq_nil_iff.mpr (by intro a ha; simp [h a ha])
  unfold countWhere
  rw [hnil]
  rfl

theorem countWhere_append (p : String → Bool) (a b : List String) :
    countWhere p (a ++ b) = countWhere p a + countWhere p b := by
  simp [countWhere, List.filter_append]

theorem errLine_isError (m : String) (ns : Int) : isErrorRecord (errLine m ns) = true := by
  simp only [isErrorRecord, lineTagIs, errLine, String.data_append, List.append_assoc]
  rw [List.take_append_of_le_length (by decide)]
  decide

theorem errLine_not_sleep (m : String) (ns : Int) : isSleepRecord (errLine m ns) = false := by
  simp only [isSleepRecord, lineTagIs, errLine, String.data_append, List.append_assoc]
  rw [List.take_append_of_le_length (by decide)]
  decide

theorem errLine_not_data (m : String) (ns : Int) : isDataRecord (errLine m ns) = false := by
  simp only [isDataRecord, lineTagIs, errLine, String.data_append, List.append_assoc]
  rw [List.take_append_of_le_length (by decide),
    List.take_append_of_le_length (by decide),
    List.take_append_of_le_length (by decide)]
  decide

theorem workout_text_not_sleep (a b : String) (ns : Int) :
    isSleepRecord ("workout,user_id=" ++ a ++ " max_heartrate=" ++ b ++ " " ++ toString ns) = false := by
  simp only [isSleepRecord, lineTagIs, String.data_append, List.append_assoc]
  rw [List.take_append_of_le_length (by decide)]
  decide

theorem heartrate_text_not_sleep (a b c : String) :
    isSleepRecord ("heartrate,user_id=" ++ a ++ " bpm=" ++ b ++ " " ++ c) = false := by
  simp only [isSleepRecord, lineTagIs, String.data_append, List.append_assoc]
  rw [List.take_append_of_le_length (by decide)]
  decide

theorem workoutLine_ok_not_sleep (tz : Int) (uid day w : Json) (l : String)
    (h : workoutLine tz uid day w = .ok l) : isSleepRecord l = false := by
  unfold workoutLine at h
  repeat' split at h
  all_goals try exact Except.noConfusion h
  injection h with h2
  subst h2
  exact workout_text_not_sleep _ _ _

theorem fmtWorkouts_not_sleep (tz : Int) (uid day : Json) (ws : List Json) :
    ∀ l ∈ (fmtWorkouts tz uid day ws).1, isSleepRecord l = false := by
  induction ws with
  | nil => intro l hl; simp [fmtWorkouts] at hl
  | cons w rest ih =>
    intro l hl
    unfold fmtWorkouts at hl
    cases hw : workoutLine tz uid day w with
    | error e => rw [hw] at hl; simp at hl
    | ok wline =>
      rw [hw] at hl
      simp at hl
      rcases hl with rfl | hl
      · exact workoutLine_ok_not_sleep tz uid day w l hw
      · exact ih l hl

theorem fmtStrainSection_not_sleep (tz : Int) (uid day : Json) :
    ∀ l ∈ (fmtStrainSection tz uid day).1, isSleepRecord l = false := by
  intro l hl
  unfold fmtStrainSection at hl
  repeat' split at hl
  all_goals first
    | simp at hl
    | exact fmtWorkouts_not_sleep tz uid day _ l hl

/-! ## Timestamp-format shape -/

/-- The rendered timestamp shape `YYYY-MM-DDTHH:MM:SS.ffffffZ`: all seven
numeric groups with their widths, the separators, the six-digit microsecond
group and the literal `Z` suffix. -/
def isoShape (s : String) : Prop :=
  ∃ yS mS dS hS miS sS uS : String,
    s = yS ++ "-" ++ mS ++ "-" ++ dS ++ "T" ++ hS ++ ":" ++ miS ++ ":" ++ sS ++ "." ++ uS ++ "Z" ∧
    yS.length = 4 ∧ mS.length = 2 ∧ dS.length = 2 ∧ hS.length = 2 ∧ miS.length = 2 ∧
    sS.length = 2 ∧ uS.length = 6

theorem strftimeISO_isoShape (t : Int) : isoShape (strftimeISO t) :=
  ⟨pad4 (civilFromDays (t.ediv 86400000000)).1,
    pad2 (civilFromDays (t.ediv 86400000000)).2.1,
    pad2 (civilFromDays (t.ediv 86400000000)).2.2,
    pad2 (((t.emod 86400000000).ediv 1000000).ediv 3600),
    pad2 ((((t.emod 86400000000).ediv 1000000).ediv 60).emod 60),
    pad2 (((t.emod 86400000000).ediv 1000000).emod 60),
    pad6 ((t.emod 86400000000).emod 1000000),
    rfl, rfl, rfl, rfl, rfl, rfl, rfl, rfl⟩

/-! ## Claims C5, C6, C9: the window calculator -/

/-- C5: for every anchor date D = (y, m, d) and window length W (the
session's `window_seconds`) with a non-cycle metric kind, the computed
window has `end = D at midnight` and `start = D at midnight - W seconds`,
both rendered as UTC strings in `YYYY-MM-DDTHH:MM:SS.ffffffZ` format with
microsecond precision and a literal `Z` suffix. -/
theorem c5_theorem (base : ScraperState) (dtype : String) (nowUs y m d : Int)
    (hdt : dtype ≠ "cycle") :
    (set_api_timestamps { base with start_date := some (y, m, d) } dtype nowUs).api_end_time =
      strftimeISO (daysFromCivil y m d * 86400000000) ∧
    (set_api_timestamps { base with start_date := some (y, m, d) } dtype nowUs).api_start_time =
      strftimeISO (daysFromCivil y m d * 86400000000 - base.window_seconds * 1000000) ∧
    isoShape (set_api_timestamps { base with start_date := some (y, m, d) } dtype nowUs).api_end_time ∧
    isoShape (set_api_timestamps { base with start_date := some (y, m, d) } dtype nowUs).api_start_time := by
  refine ⟨?_, ?_, ?_, ?_⟩ <;>
    simp [set_api_timestamps, hdt, strftimeISO_isoShape]

/-- Witness for C5 at the concrete anchor 2022-01-01 with the default
480-second window. -/
theorem c5_witness :
    ("heartrate" : String) ≠ "cycle" ∧
    ((set_api_timestamps { ScraperState.mk "" "" Json.null Json.null (some (2022, 1, 1)) 480 6 0 "" ""
        Json.null Json.null with start_date := some ((2022 : Int), (1 : Int), (1 : Int)) }
        "heartrate" 0).api_end_time =
      strftimeISO (daysFromCivil 2022 1 1 * 86400000000) ∧
      (set_api_timestamps { ScraperState.mk "" "" Json.null Json.null (some (2022, 1, 1)) 480 6 0 "" ""
        Json.null Json.null with start_date := some ((2022 : Int), (1 : Int), (1 : Int)) }
        "heartrate" 0).api_start_time =
      strftimeISO (daysFromCivil 2022 1 1 * 86400000000 -
        (ScraperState.mk "" "" Json.null Json.null (some (2022, 1, 1)) 480 6 0 "" ""
          Json.null Json.null).window_seconds * 1000000) ∧
      isoShape (set_api_timestamps { ScraperState.mk "" "" Json.null Json.null (some (2022, 1, 1)) 480 6 0 "" ""
        Json.null Json.null with start_date := some ((2022 : Int), (1 : Int), (1 : Int)) }
        "heartrate" 0).api_end_time ∧
      isoShape (set_api_timestamps { ScraperState.mk "" "" Json.null Json.null (some (2022, 1, 1)) 480 6 0 "" ""
        Json.null Json.null with start_date := some ((2022 : Int), (1 : Int), (1 : Int)) }
        "heartrate" 0).api_start_time) :=
  ⟨by decide, c5_theorem _ "heartrate" 0 2022 1 1 (by decide)⟩

/-- C6: computing the window for the "cycle" metric kind uses an effective
window length of exactly 432000 seconds, irrespective of the stored
`window_seconds`: the start timestamp renders the instant 432000 seconds
before the end timestamp's instant. -/
theorem c6_theorem (st : ScraperState) (nowUs : Int) :
    (set_api_timestamps st "cycle" nowUs).window_seconds = 432000 ∧
    (set_api_timestamps st "cycle" nowUs).api_end_time =
      strftimeISO (set_api_timestamps st "cycle" nowUs).start_datetime ∧
    (set_api_timestamps st "cycle" nowUs).api_start_time =
      strftimeISO ((set_api_timestamps st "cycle" nowUs).start_datetime - 432000 * 1000000) := by
  refine ⟨?_, ?_, ?_⟩ <;> simp [set_api_timestamps]

theorem window_seconds_of_set (st : ScraperState) (dtype : String) (nowUs : Int) :
    (set_api_timestamps st dtype nowUs).window_seconds =
      if dtype = "cycle" then 432000 else st.window_seconds := by
  simp [set_api_timestamps]

theorem applyTimestampCalls_window (calls : List (String × Int)) :
    ∀ st : ScraperState, st.window_seconds = 432000 →
      (applyTimestampCalls st calls).window_seconds = 432000 := by
  induction calls with
  | nil => intro st h; exact h
  | cons c rest ih =>
    intro st h
    unfold applyTimestampCalls
    apply ih
    rw [window_seconds_of_set]
    split <;> simp [h]

/-- C9: computing the window for the "cycle" kind permanently overwrites the
stored `window_seconds` with 432000: every later window computation — with
any metric kind — still sees and uses 432000, and no session field other
than `window_seconds` and the window-derived timestamp fields
(`start_datetime`, `api_end_time`, `api_start_time`) is changed. -/
theorem c9_theorem (st : ScraperState) (nowUs : Int) :
    (set_api_timestamps st "cycle" nowUs).window_seconds = 432000 ∧
    (set_api_timestamps st "cycle" nowUs).username = st.username ∧
    (set_api_timestamps st "cycle" nowUs).password = st.password ∧
    (set_api_timestamps st "cycle" nowUs).userid = st.userid ∧
    (set_api_timestamps st "cycle" nowUs).access_token = st.access_token ∧
    (set_api_timestamps st "cycle" nowUs).start_date = st.start_date ∧
    (set_api_timestamps st "cycle" nowUs).interval_seconds = st.interval_seconds ∧
    (set_api_timestamps st "cycle" nowUs).heartrate_data = st.heartrate_data ∧
    (set_api_timestamps st "cycle" nowUs).sleep_workout_data = st.sleep_workout_data ∧
    (∀ calls : List (String × Int),
      (applyTimestampCalls (set_api_timestamps st "cycle" nowUs) calls).window_seconds = 432000) ∧
    (∀ dtype : String, ∀ nowUs2 : Int,
      (set_api_timestamps (set_api_timestamps st "cycle" nowUs) dtype nowUs2).api_start_time =
        strftimeISO ((set_api_timestamps (set_api_timestamps st "cycle" nowUs) dtype
          nowUs2).start_datetime - 432000 * 1000000)) := by
  refine ⟨by simp [set_api_timestamps], rfl, rfl, rfl, rfl, rfl, rfl, rfl, rfl, ?_, ?_⟩
  · intro calls
    exact applyTimestampCalls_window calls _ (by simp [set_api_timestamps])
  · intro dtype nowUs2
    by_cases h : dtype = "cycle" <;> simp [set_api_timestamps, h]

/-! ## Claim C7: heart-rate formatting -/

theorem fmtHeartrates_map (uid : Json) (samples : List (Int × Int)) :
    fmtHeartrates uid
        (samples.map (fun s => Json.obj [("time", Json.num s.1), ("data", Json.num s.2)])) =
      (samples.map (fun s =>
        "heartrate,user_id=" ++ pyStr uid ++ " bpm=" ++ toString s.2 ++ " " ++
          toString (s.1 * 1000000)), none) := by
  induction samples with
  | nil => rfl
  | cons s rest ih =>
    simp only [List.map_cons, fmtHeartrates, pyIndex, lookupField, pyMul, ih]
    rfl

/-- C7: every heart-rate sample `\x7btime: t, data: b\x7d` yields exactly the
line `heartrate,user_id=U bpm=b <t * 1000000>`; in particular the sample
`\x7btime: 1000, data: 72\x7d` with user id `U` yields exactly
`heartrate,user_id=U bpm=72 1000000000`. -/
theorem c7_theorem (U : String) (tz nowNs : Int) (samples : List (Int × Int)) :
    cliPrintLineProtocol tz nowNs (Json.str U)
        (Json.obj [("values",
          Json.arr (samples.map (fun s => Json.obj [("time", Json.num s.1), ("data", Json.num s.2)])))])
        (Json.arr []) =
      (samples.map (fun s =>
        "heartrate,user_id=" ++ U ++ " bpm=" ++ toString s.2 ++ " " ++ toString (s.1 * 1000000)),
        false) ∧
    cliPrintLineProtocol 0 0 (Json.str "U")
        (Json.obj [("values", Json.arr [Json.obj [("time", Json.num 1000), ("data", Json.num 72)]])])
        (Json.arr []) =
      (["heartrate,user_id=U bpm=72 1000000000"], false) := by
  constructor
  · have hmap := fmtHeartrates_map (Json.str U) samples
    simp [cliPrintLineProtocol, pyIndex, lookupField, pyIterate, hmap, fmtDays, pyStr]
  · rfl

/-! ## Claims C1, C8: sleep formatting -/

/-- A heart-rate payload with an empty `values` list. -/
def hrEmpty : Json := Json.obj [("values", Json.arr [])]

/-- A cycle-day entry with a completed sleep. -/
def sleepDay (ds : String) (score : Json) : Json :=
  Json.obj [("sleep", Json.obj [("state", Json.str "complete"), ("score", score)]),
    ("strain", Json.null), ("days", Json.arr [Json.str ds])]

/-- C1 (amended): a completed-sleep day with date string `ds` parsing to the
civil date (y, m, d) yields the line
`sleep,user_id=U sleep_score=s <ns>` where `<ns>` is the epoch-nanosecond
value of that date at 00:00:00 in the process's local timezone
(`daysFromCivil y m d * 86400 - tz` epoch seconds, times 1000, times
1000000); this equals the UTC midnight value exactly when the platform UTC
offset `tz` is zero. -/
theorem c1_theorem (tz nowNs : Int) (U ds : String) (score : Json) (y m d : Int)
    (hp : strptimeYmd ds = .ok (y, m, d)) :
    cliPrintLineProtocol tz nowNs (Json.str U) hrEmpty (Json.arr [sleepDay ds score]) =
      (["sleep,user_id=" ++ U ++ " sleep_score=" ++ pyStr score ++ " " ++
          toString ((daysFromCivil y m d * 86400 - tz) * 1000 * 1000000)], false) := by
  simp [cliPrintLineProtocol, hrEmpty, sleepDay, fmtHeartrates, fmtDays, fmtDay,
    fmtSleepSection, fmtStrainSection, sleepLine, pyIndex, lookupField, pyIterate,
    pyIndexZero, truthy, jsonEqStr, hp, pyStr]

/-- Witness for C1 (amended) at date 2022-01-01, score 85 and offset 0, where
the rendered nanosecond value is the UTC midnight value 1640995200000000000. -/
theorem c1_witness :
    strptimeYmd "2022-01-01" = .ok (2022, 1, 1) ∧
    cliPrintLineProtocol 0 0 (Json.str "U") hrEmpty (Json.arr [sleepDay "2022-01-01" (Json.num 85)]) =
      (["sleep,user_id=" ++ "U" ++ " sleep_score=" ++ pyStr (Json.num 85) ++ " " ++
          toString ((daysFromCivil 2022 1 1 * 86400 - 0) * 1000 * 1000000)], false) :=
  ⟨rfl, c1_theorem 0 0 "U" "2022-01-01" (Json.num 85) 2022 1 1 rfl⟩

/-- C1 counterexample: on a platform whose local timezone is one hour east
of UTC (`tz = 3600`), the day 2022-01-01 with score 85 is emitted with
timestamp 1640991600000000000 (local midnight), not the UTC midnight value
1640995200000000000 the claim requires, so the claimed line is not the line
emitted. -/
theorem c1_counterexample :
    cliPrintLineProtocol 3600 0 (Json.str "U") hrEmpty (Json.arr [sleepDay "2022-01-01" (Json.num 85)]) =
      (["sleep,user_id=U sleep_score=85 1640991600000000000"], false) ∧
    "sleep,user_id=U sleep_score=85 1640991600000000000" ≠
      "sleep,user_id=U sleep_score=85 1640995200000000000" :=
  ⟨rfl, by decide⟩

theorem jsonEqStr_false_of_ne (v : Json) (s : String) (h : v ≠ Json.str s) :
    jsonEqStr v s = false := by
  cases v <;> simp [jsonEqStr]
  intro heq
  exact h (by rw [heq])

/-- The lines of one single-day cycle payload: the day's lines followed by
the error line of the day's exception, if any. -/
theorem cliPrint_single_day (tz nowNs : Int) (uid day : Json) :
    (cliPrintLineProtocol tz nowNs uid hrEmpty (Json.arr [day])).1 =
      (fmtDay tz uid day).1 ++
        (match (fmtDay tz uid day).2 with
          | some e => [errLine (strExc e) nowNs]
          | none => []) := by
  cases h : (fmtDay tz uid day).2 <;>
    simp [cliPrintLineProtocol, hrEmpty, fmtHeartrates, fmtDays, pyIndex, lookupField,
      pyIterate, h]

theorem c8_day_no_sleep_count (tz nowNs : Int) (uid day : Json)
    (hsleep : fmtSleepSection tz uid day = ([], none)) :
    countWhere isSleepRecord (cliPrintLineProtocol tz nowNs uid hrEmpty (Json.arr [day])).1 = 0 := by
  rw [cliPrint_single_day]
  have hday : fmtDay tz uid day =
      ((fmtStrainSection tz uid day).1, (fmtStrainSection tz uid day).2) := by
    unfold fmtDay
    rw [hsleep]
    simp
  rw [hday]
  dsimp only
  rw [countWhere_append]
  have h1 : countWhere isSleepRecord (fmtStrainSection tz uid day).1 = 0 :=
    countWhere_eq_zero _ _ (fmtStrainSection_not_sleep tz uid day)
  have h2 : countWhere isSleepRecord
      (match (fmtStrainSection tz uid day).2 with
        | some e => [errLine (strExc e) nowNs]
        | none => ([] : List String)) = 0 := by
    cases (fmtStrainSection tz uid day).2 with
    | none => rfl
    | some e => simp [countWhere, errLine_not_sleep]
  omega

theorem c8_day_err_count (tz nowNs : Int) (uid day : Json) (e : PyExc)
    (hsleep : fmtSleepSection tz uid day = ([], some e)) :
    countWhere isSleepRecord (cliPrintLineProtocol tz nowNs uid hrEmpty (Json.arr [day])).1 = 0 := by
  rw [cliPrint_single_day]
  have hday : fmtDay tz uid day = ([], some e) := by
    unfold fmtDay
    rw [hsleep]
  rw [hday]
  simp [countWhere, errLine_not_sleep]

/-- C8: a cycle-day entry whose sleep sub-object has state "in_progress"
(more generally, any state other than "complete"), or whose sleep value is
null, or which lacks the sleep key entirely, produces no sleep record:
no emitted line carries the `sleep,` measurement tag. -/
theorem c8_theorem (tz nowNs : Int) (uid : Json) (ds : String) (strainJ sleepJ v : Json)
    (h1 : truthy sleepJ = true) (h2 : pyIndex sleepJ "state" = .ok v)
    (h3 : v ≠ Json.str "complete") :
    countWhere isSleepRecord (cliPrintLineProtocol tz nowNs uid hrEmpty
      (Json.arr [Json.obj [("sleep", Json.null), ("strain", strainJ),
        ("days", Json.arr [Json.str ds])]])).1 = 0 ∧
    countWhere isSleepRecord (cliPrintLineProtocol tz nowNs uid hrEmpty
      (Json.arr [Json.obj [("sleep", sleepJ), ("strain", strainJ),
        ("days", Json.arr [Json.str ds])]])).1 = 0 ∧
    countWhere isSleepRecord (cliPrintLineProtocol tz nowNs uid hrEmpty
      (Json.arr [Json.obj [("strain", strainJ), ("days", Json.arr [Json.str ds])]])).1 = 0 := by
  refine ⟨?_, ?_, ?_⟩
  · exact c8_day_no_sleep_count tz nowNs uid _ rfl
  · apply c8_day_no_sleep_count tz nowNs uid
    have hsl : pyIndex (Json.obj [("sleep", sleepJ), ("strain", strainJ),
        ("days", Json.arr [Json.str ds])]) "sleep" = .ok sleepJ := rfl
    simp [fmtSleepSection, hsl, h1, h2, jsonEqStr_false_of_ne v "complete" h3]
  · exact c8_day_err_count tz nowNs uid _ (.keyError "\x27sleep\x27") rfl

/-- Witness for C8 with state "in_progress", a null strain and date
2022-01-01. -/
theorem c8_witness :
    truthy (Json.obj [("state", Json.str "in_progress")]) = true ∧
    pyIndex (Json.obj [("state", Json.str "in_progress")]) "state" = .ok (Json.str "in_progress") ∧
    Json.str "in_progress" ≠ Json.str "complete" ∧
    (countWhere isSleepRecord (cliPrintLineProtocol 0 0 (Json.str "U") hrEmpty
      (Json.arr [Json.obj [("sleep", Json.null), ("strain", Json.null),
        ("days", Json.arr [Json.str "2022-01-01"])]])).1 = 0 ∧
    countWhere isSleepRecord (cliPrintLineProtocol 0 0 (Json.str "U") hrEmpty
      (Json.arr [Json.obj [("sleep", Json.obj [("state", Json.str "in_progress")]),
        ("strain", Json.null), ("days", Json.arr [Json.str "2022-01-01"])]])).1 = 0 ∧
    countWhere isSleepRecord (cliPrintLineProtocol 0 0 (Json.str "U") hrEmpty
      (Json.arr [Json.obj [("strain", Json.null),
        ("days", Json.arr [Json.str "2022-01-01"])]])).1 = 0) := by
  have hne : Json.str "in_progress" ≠ Json.str "complete" := by
    intro h
    injection h with h2
    exact absurd h2 (by decide)
  exact ⟨rfl, rfl, hne, c8_theorem 0 0 (Json.str "U") "2022-01-01" Json.null
    (Json.obj [("state", Json.str "in_progress")]) (Json.str "in_progress") rfl rfl hne⟩

/-! ## Claim C3: malformed heart-rate payload -/

/-- C3: a fetched heart-rate payload without a `values` key makes the
formatting pass of either variant produce exactly one error record and zero
data records — for the CLI variant the printed output is exactly the single
error line, for the lambda variant `self.lines` is replaced by exactly the
single error line (and the pass aborts via `exit()`). -/
theorem c3_theorem (tz nowNs : Int) (uid hr sw : Json) (e : PyExc) (user : LamUser)
    (he : pyIndex hr "values" = .error e) (hu : user.data_raw = hr) :
    cliPrintLineProtocol tz nowNs uid hr sw = ([errLine (strExc e) nowNs], true) ∧
    lamPrint nowNs user = ({ user with lines := [errLine (strExc e) nowNs] }, true) ∧
    countWhere isErrorRecord [errLine (strExc e) nowNs] = 1 ∧
    countWhere isDataRecord [errLine (strExc e) nowNs] = 0 := by
  refine ⟨?_, ?_, ?_, ?_⟩
  · simp [cliPrintLineProtocol, he]
  · simp [lamPrint, hu, he]
  · simp [countWhere, List.filter, errLine_isError]
  · simp [countWhere, List.filter, errLine_not_data]

/-- Witness for C3 at the concrete payload `\x7b\x7d` (an object without a
`values` key, raising `KeyError`). -/
theorem c3_witness :
    pyIndex (Json.obj []) "values" = .error (.keyError "\x27values\x27") ∧
    ({ data_raw := Json.obj [] : LamUser }).data_raw = Json.obj [] ∧
    (cliPrintLineProtocol 0 5 Json.null (Json.obj []) Json.null =
        ([errLine (strExc (.keyError "\x27values\x27")) 5], true) ∧
      lamPrint 5 { data_raw := Json.obj [] } =
        ({ ({ data_raw := Json.obj [] : LamUser }) with
            lines := [errLine (strExc (.keyError "\x27values\x27")) 5] }, true) ∧
      countWhere isErrorRecord [errLine (strExc (.keyError "\x27values\x27")) 5] = 1 ∧
      countWhere isDataRecord [errLine (strExc (.keyError "\x27values\x27")) 5] = 0) :=
  ⟨rfl, rfl, c3_theorem 0 5 Json.null (Json.obj []) Json.null (.keyError "\x27values\x27")
    { data_raw := Json.obj [] } rfl rfl⟩

/-! ## Claim C4: rejected credentials -/

/-- C4: when the token endpoint returns any non-200 status, no metric GET is
issued (the request counter stays 0) and exactly one error record is
produced, in the CLI variant and in the request-handler variant alike. -/
theorem c4_theorem (cenv : CliEnv) (lenv : LamEnv) (u p : Json)
    (hc : cenv.tokenStatus ≠ 200) (hl : lenv.tokenStatus ≠ 200) :
    cliRun cenv = ([errLine "Fail - Credentials rejected." cenv.nowNs], 0) ∧
    lamInit lenv u p =
      (0, .ok { mkLamUser u p with lines := [errLine "Fail - Credentials rejected." lenv.nowNs] }) ∧
    countWhere isErrorRecord [errLine "Fail - Credentials rejected." cenv.nowNs] = 1 ∧
    countWhere isErrorRecord [errLine "Fail - Credentials rejected." lenv.nowNs] = 1 := by
  refine ⟨?_, ?_, ?_, ?_⟩
  · unfold cliRun
    rw [if_pos hc]
  · unfold lamInit
    rw [if_pos hl]
  · simp [countWhere, List.filter, errLine_isError]
  · simp [countWhere, List.filter, errLine_isError]

/-- Witness for C4 at status 401. -/
theorem c4_witness :
    ({ tokenStatus := 401, nowNs := 7 : CliEnv }).tokenStatus ≠ 200 ∧
    ({ tokenStatus := 401, nowNs := 9 : LamEnv }).tokenStatus ≠ 200 ∧
    (cliRun { tokenStatus := 401, nowNs := 7 } = ([errLine "Fail - Credentials rejected." 7], 0) ∧
      lamInit { tokenStatus := 401, nowNs := 9 } Json.null Json.null =
        (0, .ok { mkLamUser Json.null Json.null with
            lines := [errLine "Fail - Credentials rejected." 9] }) ∧
      countWhere isErrorRecord [errLine "Fail - Credentials rejected." 7] = 1 ∧
      countWhere isErrorRecord [errLine "Fail - Credentials rejected." 9] = 1) :=
  ⟨by decide, by decide,
    c4_theorem { tokenStatus := 401, nowNs := 7 } { tokenStatus := 401, nowNs := 9 }
      Json.null Json.null (by decide) (by decide)⟩

/-! ## Claims C2, C10: the request handler -/

theorem pyIndex_exit_iff (j : Json) (k : String) :
    pyIndex j k = .error .systemExit ↔ False := by
  unfold pyIndex
  repeat' split
  all_goals simp

theorem lamInit_ne_exit (env : LamEnv) (u p : Json) :
    (lamInit env u p).2 ≠ .error .systemExit := by
  unfold lamInit
  repeat' split
  all_goals intro hcon
  all_goals simp_all [pyIndex_exit_iff]

/-- Environment of the C2 failing run: credentials accepted (token endpoint
200 with user id 1), heart-rate endpoint 200 with a truthy payload that
lacks the `values` key. -/
def c2Env : LamEnv :=
  { tokenStatus := 200,
    tokenBody := Json.obj [("user", Json.obj [("id", Json.num 1)]), ("access_token", Json.str "tok")],
    hrStatus := 200,
    hrBody := Json.obj [("foo", Json.num 1)],
    nowNs := 0, nowUs := 0 }

/-- The C2 failing request: a well-formed JSON body with both credential
fields. -/
def c2Event : Json :=
  Json.obj [("body",
    Json.str "\x7b\x22whoop_username\x22: \x22u\x22, \x22whoop_password\x22: \x22p\x22\x7d")]

/-- C2: at the failing input — a well-formed request, accepted credentials
and a truthy heart-rate payload without a `values` key — `lambda_handler`
does not return a response object: the `exit()` in `print_line_protocol`
raises `SystemExit`, which neither `except Exception` handler catches, so
the exception escapes the handler, contradicting the specified behaviour of
rendering every data-shape failure as a textual error line in a returned
body. -/
theorem c2_theorem : lambda_handler c2Env c2Event = .error .systemExit := rfl

/-- C10 counterexample: the body string `5` is valid JSON (`json.loads`
succeeds), yet the handler returns statusCode 400, not 200 — `body.get`
raises `AttributeError` on the parsed integer and the outer handler turns
that into the 400 response. -/
theorem c10_counterexample :
    isErrE (pyLoads (Json.str "5")) = false ∧
    statusOf (lambda_handler { } (Json.obj [("body", Json.str "5")])) = some 400 ∧
    some (400 : Nat) ≠ some 200 :=
  ⟨rfl, rfl, by decide⟩

/-- C10 (amended): `lambda_handler` returns statusCode 400 exactly when the
envelope stage raises — reading `event["body"]`, parsing it as JSON, or
accessing the credential fields on a non-dict body; it returns statusCode
200 exactly when the envelope stage succeeds and the formatting pass does
not abort; and when the envelope stage succeeds but the formatting pass
aborts (truthy heart-rate payload whose `values` iteration raises), the
handler raises `SystemExit` and returns no response at all. -/
theorem c10_theorem (env : LamEnv) (event : Json) :
    (statusOf (lambda_handler env event) = some 400 ↔ isErrE (envelopeResult event) = true) ∧
    (statusOf (lambda_handler env event) = some 200 ↔
      (isErrE (envelopeResult event) = false ∧ fmtAborts env event = false)) ∧
    (lambda_handler env event = .error .systemExit ↔ fmtAborts env event = true) := by
  unfold lambda_handler fmtAborts
  cases h1 : pyIndex event "body" with
  | error e => simp [envelopeResult, h1, statusOf, isErrE]
  | ok bodyJ =>
    cases h2 : pyLoads bodyJ with
    | error e => simp [envelopeResult, h1, h2, statusOf, isErrE]
    | ok body =>
      cases h3 : pyDictGet body "whoop_username" with
      | error e => simp [envelopeResult, h1, h2, h3, statusOf, isErrE]
      | ok u =>
        cases h4 : pyDictGet body "whoop_password" with
        | error e => simp [envelopeResult, h1, h2, h3, h4, statusOf, isErrE]
        | ok p =>
          cases h5 : (lamInit env u p).2 with
          | error e =>
            cases e with
            | systemExit => exact absurd h5 (lamInit_ne_exit env u p)
            | keyError m => simp [envelopeResult, h1, h2, h3, h4, h5, statusOf, isErrE]
            | typeError m => simp [envelopeResult, h1, h2, h3, h4, h5, statusOf, isErrE]
            | valueError m => simp [envelopeResult, h1, h2, h3, h4, h5, statusOf, isErrE]
            | indexError m => simp [envelopeResult, h1, h2, h3, h4, h5, statusOf, isErrE]
            | attrError m => simp [envelopeResult, h1, h2, h3, h4, h5, statusOf, isErrE]
          | ok user =>
            cases ht : truthy user.data_raw with
            | false => simp [envelopeResult, h1, h2, h3, h4, h5, ht, statusOf, isErrE]
            | true =>
              cases hp : (lamPrint env.nowNs user).2 with
              | false => simp [envelopeResult, h1, h2, h3, h4, h5, ht, hp, statusOf, isErrE]
              | true => simp [envelopeResult, h1, h2, h3, h4, h5, ht, hp, statusOf, isErrE]

end Whoop
